import Mathlib

/-!
Verification of the `DoItGlobals` path-resolution subsystem of `dash_dev`
(`dash_dev/doit_base.py`, plus the `task_type_checking` task of `dodo.py`).

Filesystem paths (`pathlib.Path`) are modelled as lists of segments
(`FsPath`).  Joining a path with a string fragment (`p / 'a/b'`) splits the
fragment on `'/'` and appends the non-empty segments, which is how `pathlib`
parses relative fragments.  The filesystem itself, the current working
directory, the result of `Path.glob('*.py')` and the parsed
`[tool.poetry]` table of a `pyproject.toml` file are modelled abstractly by
the environment structure `Fs`; `Path.mkdir(parents=True, exist_ok=True)`
(reached through `ensure_dir`) is modelled as marking a directory and all of
its ancestors as existing directories.

`DoItGlobals.set_paths` mutates the instance field by field and can raise
`RuntimeError` part-way through; it is embedded as a pure function from the
old instance (and the environment) to the new instance, the environment
after the `mkdir` side effect, and `Option String` holding the message of
the raised `RuntimeError` (`none` when the call returns normally).
-/

/-- A filesystem path, as its list of segments (POSIX flavour, no root
marker; all paths in the claims are built from a project-root path by
appending relative fragments). -/
abbrev FsPath := List String

/-- Split a list of characters on `'/'`, keeping empty pieces (the same
splitting `str.split('/')` performs). -/
def splitSeg : List Char → List String
  | [] => [""]
  | c :: cs =>
    if c = '/' then "" :: splitSeg cs
    else
      match splitSeg cs with
      | [] => [String.mk [c]]
      | h :: t => String.mk (c :: h.data) :: t

/-- Segments of a relative path fragment: split on `'/'` and drop empty
pieces, as `pathlib` does when parsing `'a/b'` (`Path('a//b').parts ==
('a', 'b')`). -/
def pathSegs (s : String) : List String :=
  (splitSeg s.data).filter (fun t => t ≠ "")

/-- The `/` operator of `pathlib`: `p / s` appends the segments of the
relative fragment `s`. -/
def joinPath (p : FsPath) (s : String) : FsPath :=
  p ++ pathSegs s

/-- `Path.name`: the final segment (empty for the empty path). -/
def pathName (p : FsPath) : String :=
  p.reverse.headD ""

/-- `Path.parent`: the path without its final segment. -/
def pathParent (p : FsPath) : FsPath :=
  p.dropLast

/-- How a `Path` renders inside a Python f-string (`str(Path(...))`, POSIX
flavour): the segments joined with `'/'`. -/
def render (p : FsPath) : String :=
  String.intercalate "/" p

/-- The `[tool.poetry]` table of a `pyproject.toml` file, restricted to the
two keys the code reads. -/
structure PoetryConfig where
  name : String
  version : String
deriving DecidableEq, Repr

/-- The ambient environment of `set_paths`: filesystem predicates
(`Path.is_file`, `Path.is_dir`, `Path.exists`), the files matched by
`source_path.glob('*.py')`, the parsed `[tool.poetry]` table returned by
`toml.load(path)['tool']['poetry']`, and the process working directory
`Path.cwd()`.  `pyGlob` and `tomlPoetry` are abstract: the claims constrain
only how their results are used. -/
structure Fs where
  isFile : FsPath → Bool
  isDir : FsPath → Bool
  existsP : FsPath → Bool
  pyGlob : FsPath → List FsPath
  tomlPoetry : FsPath → PoetryConfig
  cwd : FsPath

/-- The `ensure_dir` helper (`doit_base.py`): `dir_path.mkdir(parents=True,
exist_ok=True)`.  Modelled as marking `dir_path` and every ancestor as an
existing directory; file entries and glob results are untouched (the claims
never place a blocking file at the created path). -/
def ensure_dir (fs : Fs) (dir_path : FsPath) : Fs :=
  { fs with
    isDir := fun q => fs.isDir q || q.isPrefixOf dir_path,
    existsP := fun q => fs.existsP q || q.isPrefixOf dir_path }

/-- The instance attributes of the `DoItGlobals` class (`doit_base.py`,
lines 29-83), with the class-level defaults.  Optional attributes initialised
to `None` in the class body are `Option`s. -/
structure DoItGlobals where
  dash_dev_dir : FsPath
  flake8_path : Option FsPath := none
  path_gitchangelog : FsPath
  lint_paths : List FsPath := []
  excluded_files : List String := ["__init__.py"]
  external_doc_dirs : List String := ["examples", "scripts", "tests"]
  source_path : Option FsPath := none
  test_path : Option FsPath := none
  toml_path : Option FsPath := none
  pkg_name : Option String := none
  doc_dir : Option FsPath := none
  coverage_path : Option FsPath := none
  test_report_path : Option FsPath := none
  src_examples_dir : Option FsPath := none
  tmp_examples_dir : Option FsPath := none
  template_dir : Option FsPath := none
  pkg_version : Option String := none
deriving DecidableEq, Repr

/-- A fresh `DoItGlobals()` instance: every attribute holds its class-level
default.  `dash_dev_dir` is `Path(__file__).parent` (the installed package
directory, process-dependent), and `path_gitchangelog` is
`dash_dev_dir / '.gitchangelog.rc'`. -/
def DoItGlobals.init (dashDevDir : FsPath) : DoItGlobals :=
  { dash_dev_dir := dashDevDir,
    path_gitchangelog := joinPath dashDevDir ".gitchangelog.rc" }

/-- The names of the class attributes of `DoItGlobals` (`doit_base.py`,
lines 29-83), in source order. -/
def doItGlobalsAttrs : List String :=
  ["dash_dev_dir", "flake8_path", "path_gitchangelog", "lint_paths",
   "excluded_files", "external_doc_dirs", "source_path", "test_path",
   "toml_path", "pkg_name", "doc_dir", "coverage_path", "test_report_path",
   "src_examples_dir", "tmp_examples_dir", "template_dir", "pkg_version"]

/-- Substring test (`needle in haystack` on Python strings). -/
def strContainsSub (s pat : String) : Bool :=
  decide (pat.data <:+: s.data)

/-- The documentation directory chosen on line 104 of `doit_base.py`:
`self.source_path / 'docs' if doc_dir is None else doc_dir`. -/
def resolvedDocDir (sourcePath : FsPath) (docDirArg : Option FsPath) : FsPath :=
  match docDirArg with
  | none => joinPath sourcePath "docs"
  | some d => d

/-- `DoItGlobals.set_paths` (`doit_base.py`, lines 85-132).  Returns the
updated instance, the environment after the `ensure_dir` side effect, and
`some msg` when the method raises `RuntimeError(msg)` (in which case the
instance still carries every assignment executed before the `raise`).  The
`pkgName` argument is accepted and, as in the source, only logged, never
used.  The dash test `'-' in self.pkg_name` (a one-character substring
test) is embedded as membership of `'-'` among the name's characters,
which is the same predicate. -/
def DoItGlobals.set_paths (self : DoItGlobals) (pkgName : Option String)
    (sourcePathArg : Option FsPath) (docDirArg : Option FsPath) (fs : Fs) :
    DoItGlobals × Fs × Option String :=
  let sourcePath := match sourcePathArg with
    | none => fs.cwd
    | some p => p
  let testPath := joinPath sourcePath "tests"
  let docDir := resolvedDocDir sourcePath docDirArg
  let templateDir := joinPath docDir "templates"
  let fs1 := ensure_dir fs templateDir
  let tomlPath := joinPath sourcePath "pyproject.toml"
  let s1 : DoItGlobals := { self with
    source_path := some sourcePath,
    test_path := some testPath,
    doc_dir := some docDir,
    template_dir := some templateDir,
    coverage_path := some (joinPath docDir "cov_html/index.html"),
    test_report_path := some (joinPath docDir "test_report.html"),
    flake8_path := some (joinPath sourcePath ".flake8"),
    toml_path := some tomlPath }
  if fs1.isFile tomlPath = false then
    (s1, fs1, some ("Could not find " ++ pathName tomlPath
      ++ ". Check that the " ++ render sourcePath ++ " is correct"))
  else
    let poetry := fs1.tomlPoetry tomlPath
    let s2 : DoItGlobals := { s1 with
      pkg_version := some poetry.version,
      pkg_name := some poetry.name }
    if poetry.name.data.contains '-' then
      (s2, fs1, some ("Replace dashes in name with underscores ("
        ++ poetry.name ++ ") in " ++ render tomlPath))
    else
      let srcExamplesDir := joinPath sourcePath "tests/examples"
      let s3 : DoItGlobals := { s2 with
        src_examples_dir :=
          if fs1.isDir srcExamplesDir then some srcExamplesDir else none,
        tmp_examples_dir := some (joinPath sourcePath (poetry.name ++ "/0EX")) }
      let subDirs := poetry.name :: self.external_doc_dirs
      let cands := (subDirs.map (fun sub => joinPath sourcePath sub))
        ++ [testPath] ++ fs1.pyGlob sourcePath
      let s4 : DoItGlobals := { s3 with
        lint_paths := (cands.filter (fun q => fs1.existsP q)).dedup }
      (s4, fs1, none)

/-- Placeholder for `Path(__file__).parent` of the installed `doit_base.py`
module; its concrete value is process-dependent and irrelevant to every
claim. -/
def dash_dev_dir : FsPath := ["dash_dev"]

/-- The module-level singleton `DIG = DoItGlobals()` (`doit_base.py`,
line 135). -/
def DIG : DoItGlobals := DoItGlobals.init dash_dev_dir

/-- A registered task dictionary, restricted to the keys the claims
mention: the shell-command actions and the verbosity (`title` is the
debugging formatter `_show_cmd` and carries no data). -/
structure DoItTask where
  actions : List String
  verbosity : Nat
deriving DecidableEq, Repr

/-- The `debug_task` helper (`doit_base.py`, lines 183-198). -/
def debug_task (actions : List String) (verbosity : Nat) : DoItTask :=
  { actions := actions, verbosity := verbosity }

/-- `task_export_req` (`doit_base.py`, lines 358-366): builds its shell
action from `DIG.toml_path`.  When `toml_path` is still `None` the Python
attribute access `DIG.toml_path.parent` fails; that failure is modelled as
`none`. -/
def task_export_req (dig : DoItGlobals) : Option DoItTask :=
  match dig.toml_path with
  | none => none
  | some t =>
    let req_path := joinPath (pathParent t) "requirements.txt"
    some (debug_task
      ["poetry export -f " ++ pathName req_path ++ " -o \"" ++ render req_path
        ++ "\" --without-hashes --dev"] 2)

/-- `task_type_checking` (`dodo.py`): builds its mypy command from
`DIG.pkg_name`.  A `None` name renders as the string `None` inside the
f-string, as in Python. -/
def task_type_checking (dig : DoItGlobals) : DoItTask :=
  debug_task
    ["poetry run mypy " ++ (match dig.pkg_name with
      | some n => n
      | none => "None")] 2

/-- A concrete healthy project environment used by the witnesses: the root
`proj` holds a `pyproject.toml` naming the package `demo_pkg`, a `tests`
directory, and one top-level Python file `dodo.py`. -/
def fsDemo : Fs :=
  { isFile := fun q => q == ["proj", "pyproject.toml"] || q == ["proj", "dodo.py"],
    isDir := fun q => q == ["proj"] || q == ["proj", "tests"],
    existsP := fun q => q == ["proj", "pyproject.toml"] || q == ["proj", "dodo.py"]
      || q == ["proj"] || q == ["proj", "tests"],
    pyGlob := fun q => if q == ["proj"] then [["proj", "dodo.py"]] else [],
    tomlPoetry := fun _ => { name := "demo_pkg", version := "0.1.0" },
    cwd := ["cwdroot"] }

/-- A concrete environment whose project root `proj` holds no
`pyproject.toml` at all. -/
def fsNoToml : Fs :=
  { isFile := fun _ => false,
    isDir := fun _ => false,
    existsP := fun _ => false,
    pyGlob := fun _ => [],
    tomlPoetry := fun _ => { name := "unused", version := "0" },
    cwd := ["cwdroot"] }

/-- A concrete environment whose `pyproject.toml` names the package with a
dash (`demo-pkg`). -/
def fsDashed : Fs :=
  { isFile := fun q => q == ["proj", "pyproject.toml"],
    isDir := fun _ => false,
    existsP := fun q => q == ["proj", "pyproject.toml"],
    pyGlob := fun _ => [],
    tomlPoetry := fun _ => { name := "demo-pkg", version := "0.1.0" },
    cwd := ["cwdroot"] }

/-!
Helper lemmas: path-fragment algebra and the shape of `set_paths` results.
-/

theorem splitSeg_ne_nil (l : List Char) : splitSeg l ≠ [] := by
  induction l with
  | nil => simp [splitSeg]
  | cons c cs ih =>
    simp only [splitSeg]
    split
    · simp
    · split
      · simp
      · simp

theorem splitSeg_append_slash (a b : List Char) :
    splitSeg (a ++ '/' :: b) = splitSeg a ++ splitSeg b := by
  induction a with
  | nil => simp [splitSeg]
  | cons c cs ih =>
    by_cases hc : c = '/'
    · subst hc
      simp [splitSeg, ih]
    · rcases h : splitSeg cs with _ | ⟨x, xs⟩
      · exact absurd h (splitSeg_ne_nil cs)
      · simp only [List.cons_append, List.append_eq, splitSeg, if_neg hc]
        rw [ih, h]
        simp

theorem pathSegs_append_slash (a b : String) :
    pathSegs (a ++ "/" ++ b) = pathSegs a ++ pathSegs b := by
  have hdata : (a ++ "/" ++ b).data = a.data ++ '/' :: b.data := by
    simp [String.data_append]
  simp [pathSegs, hdata, splitSeg_append_slash, List.filter_append]

theorem joinPath_concat_seg (p : FsPath) (a b : String) :
    joinPath p (a ++ "/" ++ b) = joinPath (joinPath p a) b := by
  simp [joinPath, pathSegs_append_slash, List.append_assoc]

theorem pathName_concat (l : FsPath) (a : String) :
    pathName (l ++ [a]) = a := by
  simp [pathName, List.reverse_append]

theorem ensure_dir_isFile (fs : Fs) (d : FsPath) :
    (ensure_dir fs d).isFile = fs.isFile := rfl

theorem ensure_dir_tomlPoetry (fs : Fs) (d : FsPath) :
    (ensure_dir fs d).tomlPoetry = fs.tomlPoetry := rfl

theorem ensure_dir_pyGlob (fs : Fs) (d : FsPath) :
    (ensure_dir fs d).pyGlob = fs.pyGlob := rfl

theorem ensure_dir_isDir_self (fs : Fs) (d : FsPath) :
    (ensure_dir fs d).isDir d = true := by
  simp [ensure_dir]

theorem pathName_join_single (p : FsPath) (s : String) (hs : pathSegs s = [s]) :
    pathName (joinPath p s) = s := by
  rw [joinPath, hs, pathName_concat]

theorem set_paths_source_path (dig : DoItGlobals) (pk : Option String)
    (spo ddo : Option FsPath) (fs : Fs) :
    (dig.set_paths pk spo ddo fs).1.source_path =
      some (match spo with | none => fs.cwd | some p => p) := by
  simp only [DoItGlobals.set_paths]
  split <;> first | rfl | (split <;> rfl)

theorem set_paths_toml_path (dig : DoItGlobals) (pk : Option String)
    (spo ddo : Option FsPath) (fs : Fs) :
    (dig.set_paths pk spo ddo fs).1.toml_path =
      some (joinPath (match spo with | none => fs.cwd | some p => p)
        "pyproject.toml") := by
  simp only [DoItGlobals.set_paths]
  split <;> first | rfl | (split <;> rfl)

theorem set_paths_err_none_iff (dig : DoItGlobals) (pk : Option String)
    (p : FsPath) (ddo : Option FsPath) (fs : Fs) :
    (dig.set_paths pk (some p) ddo fs).2.2 = none ↔
      (fs.isFile (joinPath p "pyproject.toml") = true ∧
        (fs.tomlPoetry (joinPath p "pyproject.toml")).name.data.contains '-'
          = false) := by
  simp only [DoItGlobals.set_paths, ensure_dir_isFile, ensure_dir_tomlPoetry]
  split
  · rename_i h
    simp_all
  · split
    · rename_i h1 h2
      simp_all
    · rename_i h1 h2
      simp_all

theorem set_paths_success_eq (dig : DoItGlobals) (pk : Option String) (p : FsPath)
    (ddo : Option FsPath) (fs : Fs)
    (hf : fs.isFile (joinPath p "pyproject.toml") = true)
    (hd : (fs.tomlPoetry (joinPath p "pyproject.toml")).name.data.contains '-'
      = false) :
    dig.set_paths pk (some p) ddo fs =
      ({ dig with
          source_path := some p,
          test_path := some (joinPath p "tests"),
          doc_dir := some (resolvedDocDir p ddo),
          template_dir := some (joinPath (resolvedDocDir p ddo) "templates"),
          coverage_path := some (joinPath (resolvedDocDir p ddo) "cov_html/index.html"),
          test_report_path := some (joinPath (resolvedDocDir p ddo) "test_report.html"),
          flake8_path := some (joinPath p ".flake8"),
          toml_path := some (joinPath p "pyproject.toml"),
          pkg_version := some (fs.tomlPoetry (joinPath p "pyproject.toml")).version,
          pkg_name := some (fs.tomlPoetry (joinPath p "pyproject.toml")).name,
          src_examples_dir :=
            if (ensure_dir fs (joinPath (resolvedDocDir p ddo) "templates")).isDir
                (joinPath p "tests/examples")
            then some (joinPath p "tests/examples") else none,
          tmp_examples_dir :=
            some (joinPath p
              ((fs.tomlPoetry (joinPath p "pyproject.toml")).name ++ "/0EX")),
          lint_paths :=
            ((((fs.tomlPoetry (joinPath p "pyproject.toml")).name
                  :: dig.external_doc_dirs).map
                (fun sub => joinPath p sub)
              ++ [joinPath p "tests"]
              ++ fs.pyGlob p).filter
                (fun q => (ensure_dir fs
                  (joinPath (resolvedDocDir p ddo) "templates")).existsP q)).dedup },
        ensure_dir fs (joinPath (resolvedDocDir p ddo) "templates"),
        none) := by
  have hd' : '-' ∉ (fs.tomlPoetry (joinPath p "pyproject.toml")).name.data := by
    simpa using hd
  simp [DoItGlobals.set_paths, ensure_dir_isFile, ensure_dir_tomlPoetry,
    ensure_dir_pyGlob, hf, hd']

theorem set_paths_missing_eq (dig : DoItGlobals) (pk : Option String) (p : FsPath)
    (ddo : Option FsPath) (fs : Fs)
    (hf : fs.isFile (joinPath p "pyproject.toml") = false) :
    dig.set_paths pk (some p) ddo fs =
      ({ dig with
          source_path := some p,
          test_path := some (joinPath p "tests"),
          doc_dir := some (resolvedDocDir p ddo),
          template_dir := some (joinPath (resolvedDocDir p ddo) "templates"),
          coverage_path := some (joinPath (resolvedDocDir p ddo) "cov_html/index.html"),
          test_report_path := some (joinPath (resolvedDocDir p ddo) "test_report.html"),
          flake8_path := some (joinPath p ".flake8"),
          toml_path := some (joinPath p "pyproject.toml") },
        ensure_dir fs (joinPath (resolvedDocDir p ddo) "templates"),
        some ("Could not find " ++ pathName (joinPath p "pyproject.toml")
          ++ ". Check that the " ++ render p ++ " is correct")) := by
  simp [DoItGlobals.set_paths, ensure_dir_isFile, hf]

theorem set_paths_dash_eq (dig : DoItGlobals) (pk : Option String) (p : FsPath)
    (ddo : Option FsPath) (fs : Fs)
    (hf : fs.isFile (joinPath p "pyproject.toml") = true)
    (hd : (fs.tomlPoetry (joinPath p "pyproject.toml")).name.data.contains '-'
      = true) :
    dig.set_paths pk (some p) ddo fs =
      ({ dig with
          source_path := some p,
          test_path := some (joinPath p "tests"),
          doc_dir := some (resolvedDocDir p ddo),
          template_dir := some (joinPath (resolvedDocDir p ddo) "templates"),
          coverage_path := some (joinPath (resolvedDocDir p ddo) "cov_html/index.html"),
          test_report_path := some (joinPath (resolvedDocDir p ddo) "test_report.html"),
          flake8_path := some (joinPath p ".flake8"),
          toml_path := some (joinPath p "pyproject.toml"),
          pkg_version := some (fs.tomlPoetry (joinPath p "pyproject.toml")).version,
          pkg_name := some (fs.tomlPoetry (joinPath p "pyproject.toml")).name },
        ensure_dir fs (joinPath (resolvedDocDir p ddo) "templates"),
        some ("Replace dashes in name with underscores ("
          ++ (fs.tomlPoetry (joinPath p "pyproject.toml")).name ++ ") in "
          ++ render (joinPath p "pyproject.toml"))) := by
  have hd' : '-' ∈ (fs.tomlPoetry (joinPath p "pyproject.toml")).name.data := by
    simpa using hd
  simp [DoItGlobals.set_paths, ensure_dir_isFile, ensure_dir_tomlPoetry, hf, hd']

theorem pathName_toml (p : FsPath) :
    pathName (joinPath p "pyproject.toml") = "pyproject.toml" :=
  pathName_join_single p "pyproject.toml" rfl

/-!
Claim theorems.
-/

/-- C1: for every project root whose `pyproject.toml` is not an existing
file, `set_paths` raises a `RuntimeError` whose message names the missing
file (`pyproject.toml`) and the checked directory (the rendered root). -/
theorem set_paths_missing_toml_error (dig : DoItGlobals) (pk : Option String)
    (p : FsPath) (ddo : Option FsPath) (fs : Fs)
    (hf : fs.isFile (joinPath p "pyproject.toml") = false) :
    (dig.set_paths pk (some p) ddo fs).2.2 =
      some ("Could not find pyproject.toml. Check that the "
        ++ render p ++ " is correct") := by
  rw [set_paths_missing_eq dig pk p ddo fs hf, pathName_toml]
  rfl

/-- Witness for C1 at the concrete root `proj` of `fsNoToml`. -/
theorem set_paths_missing_toml_error_witness :
    fsNoToml.isFile (joinPath ["proj"] "pyproject.toml") = false ∧
      ((DoItGlobals.init ["dd"]).set_paths none (some ["proj"]) none fsNoToml).2.2 =
        some ("Could not find pyproject.toml. Check that the proj is correct") :=
  ⟨by decide,
    set_paths_missing_toml_error (DoItGlobals.init ["dd"]) none ["proj"] none
      fsNoToml (by decide)⟩

/-- C2: when `pyproject.toml` exists and the `[tool.poetry].name` value
contains a dash, `set_paths` raises a `RuntimeError` whose message includes
the offending name and asks for dashes to be replaced with underscores;
when the name contains no dash the call raises nothing at all. -/
theorem set_paths_dashed_name_error (dig : DoItGlobals) (pk : Option String)
    (p : FsPath) (ddo : Option FsPath) (fs : Fs)
    (hf : fs.isFile (joinPath p "pyproject.toml") = true) :
    ((fs.tomlPoetry (joinPath p "pyproject.toml")).name.data.contains '-' = true →
      (dig.set_paths pk (some p) ddo fs).2.2 =
        some ("Replace dashes in name with underscores ("
          ++ (fs.tomlPoetry (joinPath p "pyproject.toml")).name ++ ") in "
          ++ render (joinPath p "pyproject.toml")))
    ∧ ((fs.tomlPoetry (joinPath p "pyproject.toml")).name.data.contains '-' = false →
      (dig.set_paths pk (some p) ddo fs).2.2 = none) := by
  constructor
  · intro hd
    rw [set_paths_dash_eq dig pk p ddo fs hf hd]
  · intro hd
    rw [set_paths_success_eq dig pk p ddo fs hf hd]

/-- Witness for C2 at the concrete environment `fsDashed` whose manifest
names the package `demo-pkg`. -/
theorem set_paths_dashed_name_error_witness :
    fsDashed.isFile (joinPath ["proj"] "pyproject.toml") = true ∧
      ((("demo-pkg".data.contains '-' = true) →
        ((DoItGlobals.init ["dd"]).set_paths none (some ["proj"]) none fsDashed).2.2 =
          some ("Replace dashes in name with underscores (demo-pkg) in "
            ++ render (joinPath ["proj"] "pyproject.toml")))
      ∧ (("demo-pkg".data.contains '-' = false) →
        ((DoItGlobals.init ["dd"]).set_paths none (some ["proj"]) none fsDashed).2.2 =
          none)) :=
  ⟨by decide,
    set_paths_dashed_name_error (DoItGlobals.init ["dd"]) none ["proj"] none
      fsDashed (by decide)⟩

/-- C3: on every successful call with explicit root `p`, the resolved
locations are pure functions of `p` (and of the optional `doc_dir`
argument): `test_path = p / 'tests'`, `doc_dir = p / 'docs'` when no
explicit directory is passed and the passed directory `d` otherwise, and
`template_dir`, `coverage_path` and `test_report_path` hang off that
`doc_dir`, while `flake8_path = p / '.flake8'` and
`toml_path = p / 'pyproject.toml'`. -/
theorem set_paths_resolved_locations (dig : DoItGlobals) (pk : Option String)
    (p : FsPath) (ddo : Option FsPath) (fs : Fs)
    (h : (dig.set_paths pk (some p) ddo fs).2.2 = none) :
    (dig.set_paths pk (some p) ddo fs).1.test_path = some (joinPath p "tests")
    ∧ (dig.set_paths pk (some p) ddo fs).1.doc_dir = some (resolvedDocDir p ddo)
    ∧ (dig.set_paths pk (some p) ddo fs).1.template_dir =
        some (joinPath (resolvedDocDir p ddo) "templates")
    ∧ (dig.set_paths pk (some p) ddo fs).1.coverage_path =
        some (joinPath (resolvedDocDir p ddo) "cov_html/index.html")
    ∧ (dig.set_paths pk (some p) ddo fs).1.test_report_path =
        some (joinPath (resolvedDocDir p ddo) "test_report.html")
    ∧ (dig.set_paths pk (some p) ddo fs).1.flake8_path =
        some (joinPath p ".flake8")
    ∧ (dig.set_paths pk (some p) ddo fs).1.toml_path =
        some (joinPath p "pyproject.toml")
    ∧ resolvedDocDir p none = joinPath p "docs"
    ∧ ∀ d : FsPath, resolvedDocDir p (some d) = d := by
  obtain ⟨hf, hd⟩ := (set_paths_err_none_iff dig pk p ddo fs).mp h
  rw [set_paths_success_eq dig pk p ddo fs hf hd]
  exact ⟨rfl, rfl, rfl, rfl, rfl, rfl, rfl, rfl, fun d => rfl⟩

/-- Witness for C3 at the concrete root `proj` of `fsDemo`. -/
theorem set_paths_resolved_locations_witness :
    ((DoItGlobals.init ["dd"]).set_paths none (some ["proj"]) none fsDemo).2.2 = none
    ∧ (((DoItGlobals.init ["dd"]).set_paths none (some ["proj"]) none fsDemo).1.test_path
        = some (joinPath ["proj"] "tests")
      ∧ ((DoItGlobals.init ["dd"]).set_paths none (some ["proj"]) none fsDemo).1.doc_dir
        = some (resolvedDocDir ["proj"] none)
      ∧ ((DoItGlobals.init ["dd"]).set_paths none (some ["proj"]) none fsDemo).1.template_dir
        = some (joinPath (resolvedDocDir ["proj"] none) "templates")
      ∧ ((DoItGlobals.init ["dd"]).set_paths none (some ["proj"]) none fsDemo).1.coverage_path
        = some (joinPath (resolvedDocDir ["proj"] none) "cov_html/index.html")
      ∧ ((DoItGlobals.init ["dd"]).set_paths none (some ["proj"]) none fsDemo).1.test_report_path
        = some (joinPath (resolvedDocDir ["proj"] none) "test_report.html")
      ∧ ((DoItGlobals.init ["dd"]).set_paths none (some ["proj"]) none fsDemo).1.flake8_path
        = some (joinPath ["proj"] ".flake8")
      ∧ ((DoItGlobals.init ["dd"]).set_paths none (some ["proj"]) none fsDemo).1.toml_path
        = some (joinPath ["proj"] "pyproject.toml")
      ∧ resolvedDocDir ["proj"] none = joinPath ["proj"] "docs"
      ∧ ∀ d : FsPath, resolvedDocDir ["proj"] (some d) = d) :=
  ⟨by decide,
    set_paths_resolved_locations (DoItGlobals.init ["dd"]) none ["proj"] none
      fsDemo (by decide)⟩

/-- C4: after every successful call, `pkg_name` and `pkg_version` are read
from the `[tool.poetry]` table of the manifest at `p / 'pyproject.toml'`. -/
theorem set_paths_reads_name_and_version (dig : DoItGlobals) (pk : Option String)
    (p : FsPath) (ddo : Option FsPath) (fs : Fs)
    (h : (dig.set_paths pk (some p) ddo fs).2.2 = none) :
    (dig.set_paths pk (some p) ddo fs).1.pkg_name =
      some (fs.tomlPoetry (joinPath p "pyproject.toml")).name
    ∧ (dig.set_paths pk (some p) ddo fs).1.pkg_version =
      some (fs.tomlPoetry (joinPath p "pyproject.toml")).version := by
  obtain ⟨hf, hd⟩ := (set_paths_err_none_iff dig pk p ddo fs).mp h
  rw [set_paths_success_eq dig pk p ddo fs hf hd]
  exact ⟨rfl, rfl⟩

/-- Witness for C4 at the concrete root `proj` of `fsDemo` (package
`demo_pkg`, version `0.1.0`). -/
theorem set_paths_reads_name_and_version_witness :
    ((DoItGlobals.init ["dd"]).set_paths none (some ["proj"]) none fsDemo).2.2 = none
    ∧ (((DoItGlobals.init ["dd"]).set_paths none (some ["proj"]) none fsDemo).1.pkg_name
        = some (fsDemo.tomlPoetry (joinPath ["proj"] "pyproject.toml")).name
      ∧ ((DoItGlobals.init ["dd"]).set_paths none (some ["proj"]) none fsDemo).1.pkg_version
        = some (fsDemo.tomlPoetry (joinPath ["proj"] "pyproject.toml")).version) :=
  ⟨by decide,
    set_paths_reads_name_and_version (DoItGlobals.init ["dd"]) none ["proj"]
      none fsDemo (by decide)⟩

/-- C5: after every successful call (with the class-default
`external_doc_dirs`), `lint_paths` holds exactly those candidates among
`p / pkg_name`, `p / 'examples'`, `p / 'scripts'`, `p / 'tests'` (which is
also `test_path`) and the top-level `*.py` files of `p` that exist on the
filesystem at the end of the call, and the collection is duplicate-free. -/
theorem set_paths_lint_paths_spec (dig : DoItGlobals) (pk : Option String)
    (p : FsPath) (ddo : Option FsPath) (fs : Fs)
    (hext : dig.external_doc_dirs = ["examples", "scripts", "tests"])
    (h : (dig.set_paths pk (some p) ddo fs).2.2 = none) :
    (∀ x : FsPath,
      x ∈ (dig.set_paths pk (some p) ddo fs).1.lint_paths ↔
        ((x = joinPath p (fs.tomlPoetry (joinPath p "pyproject.toml")).name
          ∨ x = joinPath p "examples"
          ∨ x = joinPath p "scripts"
          ∨ x = joinPath p "tests"
          ∨ x ∈ fs.pyGlob p)
        ∧ (dig.set_paths pk (some p) ddo fs).2.1.existsP x = true))
    ∧ (dig.set_paths pk (some p) ddo fs).1.lint_paths.Nodup := by
  obtain ⟨hf, hd⟩ := (set_paths_err_none_iff dig pk p ddo fs).mp h
  rw [set_paths_success_eq dig pk p ddo fs hf hd]
  constructor
  · intro x
    simp [hext, List.mem_dedup, List.mem_filter]
  · exact List.nodup_dedup _

/-- Witness for C5 at the concrete root `proj` of `fsDemo`. -/
theorem set_paths_lint_paths_spec_witness :
    (DoItGlobals.init ["dd"]).external_doc_dirs = ["examples", "scripts", "tests"]
    ∧ ((DoItGlobals.init ["dd"]).set_paths none (some ["proj"]) none fsDemo).2.2 = none
    ∧ ((∀ x : FsPath,
        x ∈ ((DoItGlobals.init ["dd"]).set_paths none (some ["proj"]) none fsDemo).1.lint_paths ↔
          ((x = joinPath ["proj"] (fsDemo.tomlPoetry (joinPath ["proj"] "pyproject.toml")).name
            ∨ x = joinPath ["proj"] "examples"
            ∨ x = joinPath ["proj"] "scripts"
            ∨ x = joinPath ["proj"] "tests"
            ∨ x ∈ fsDemo.pyGlob ["proj"])
          ∧ ((DoItGlobals.init ["dd"]).set_paths none (some ["proj"]) none fsDemo).2.1.existsP x
              = true))
      ∧ ((DoItGlobals.init ["dd"]).set_paths none (some ["proj"]) none fsDemo).1.lint_paths.Nodup) :=
  ⟨by decide, by decide,
    set_paths_lint_paths_spec (DoItGlobals.init ["dd"]) none ["proj"] none
      fsDemo (by decide) (by decide)⟩

/-- C6 counterexample: the claim that `set_paths` computes a tag-file
location held in the globals object is false — no attribute of the
`DoItGlobals` class so much as mentions a tag (the negation of the claim's
existential, decided over the class's seventeen attributes). -/
theorem doItGlobals_no_tag_attr :
    (doItGlobalsAttrs.all (fun a => !(strContainsSub a "tag")) = true)
    ∧ doItGlobalsAttrs.length = 17 := by
  decide

/-- C6 (amended): `set_paths` computes no tag-file location; the only
changelog-related path in the globals, `path_gitchangelog`, is a class
constant under the `dash_dev` package directory — left untouched by every
`set_paths` call and never derived from the project root. -/
theorem set_paths_no_tag_path (dig : DoItGlobals) (pk : Option String)
    (spo ddo : Option FsPath) (fs : Fs) :
    (dig.set_paths pk spo ddo fs).1.path_gitchangelog = dig.path_gitchangelog
    ∧ ∀ d : FsPath,
        (DoItGlobals.init d).path_gitchangelog = joinPath d ".gitchangelog.rc" := by
  constructor
  · simp only [DoItGlobals.set_paths]
    split <;> first | rfl | (split <;> rfl)
  · intro d
    rfl

/-- C7: the resolved paths live in the module-level instance `DIG`, and the
task functions consume that shared state — `task_export_req` builds its
shell action from the `toml_path` stored by `set_paths` (exporting
`requirements.txt` into `toml_path.parent`), and `task_type_checking`
builds its mypy command from the stored `pkg_name`. -/
theorem tasks_consume_dig_state (pk : Option String) (spo ddo : Option FsPath)
    (fs : Fs) (t : FsPath) (n : String)
    (ht : (DIG.set_paths pk spo ddo fs).1.toml_path = some t)
    (hn : (DIG.set_paths pk spo ddo fs).1.pkg_name = some n) :
    task_export_req (DIG.set_paths pk spo ddo fs).1 =
      some (debug_task ["poetry export -f requirements.txt -o \""
        ++ render (joinPath (pathParent t) "requirements.txt")
        ++ "\" --without-hashes --dev"] 2)
    ∧ task_type_checking (DIG.set_paths pk spo ddo fs).1 =
      debug_task ["poetry run mypy " ++ n] 2 := by
  constructor
  · simp only [task_export_req, ht]
    rw [pathName_join_single (pathParent t) "requirements.txt" rfl]
    rfl
  · simp only [task_type_checking, hn]

/-- Witness for C7: after `DIG.set_paths` on the concrete root `proj` of
`fsDemo`, both tasks are built from the stored state. -/
theorem tasks_consume_dig_state_witness :
    (DIG.set_paths none (some ["proj"]) none fsDemo).1.toml_path =
      some ["proj", "pyproject.toml"]
    ∧ (DIG.set_paths none (some ["proj"]) none fsDemo).1.pkg_name =
      some "demo_pkg"
    ∧ (task_export_req (DIG.set_paths none (some ["proj"]) none fsDemo).1 =
        some (debug_task ["poetry export -f requirements.txt -o \""
          ++ render (joinPath (pathParent ["proj", "pyproject.toml"]) "requirements.txt")
          ++ "\" --without-hashes --dev"] 2)
      ∧ task_type_checking (DIG.set_paths none (some ["proj"]) none fsDemo).1 =
        debug_task ["poetry run mypy " ++ "demo_pkg"] 2) :=
  ⟨by decide, by decide,
    tasks_consume_dig_state none (some ["proj"]) none fsDemo
      ["proj", "pyproject.toml"] "demo_pkg" (by decide) (by decide)⟩

/-- C8: when `source_path` is not passed, the project root is the process
working directory `Path.cwd()`; when it is passed, that value is used
unchanged — shown on the stored root itself and on the derived
`toml_path`. -/
theorem set_paths_default_root_cwd (dig : DoItGlobals) (pk : Option String)
    (ddo : Option FsPath) (fs : Fs) (p : FsPath) :
    (dig.set_paths pk none ddo fs).1.source_path = some fs.cwd
    ∧ (dig.set_paths pk none ddo fs).1.toml_path =
        some (joinPath fs.cwd "pyproject.toml")
    ∧ (dig.set_paths pk (some p) ddo fs).1.source_path = some p
    ∧ (dig.set_paths pk (some p) ddo fs).1.toml_path =
        some (joinPath p "pyproject.toml") :=
  ⟨set_paths_source_path dig pk none ddo fs,
    set_paths_toml_path dig pk none ddo fs,
    set_paths_source_path dig pk (some p) ddo fs,
    set_paths_toml_path dig pk (some p) ddo fs⟩

/-- C9: `set_paths` is not atomic on failure — whenever it raises, the
instance already holds the new `source_path`, `test_path`, `doc_dir`,
`template_dir`, `coverage_path`, `test_report_path`, `flake8_path` and
`toml_path`, and the templates directory has been created on disk; on the
dash-in-name error (manifest file present) `pkg_name` and `pkg_version`
already hold the values read from the manifest, while on the missing-file
error they are unchanged from before the call. -/
theorem set_paths_partial_update_on_error (dig : DoItGlobals) (pk : Option String)
    (p : FsPath) (ddo : Option FsPath) (fs : Fs)
    (h : (dig.set_paths pk (some p) ddo fs).2.2.isSome = true) :
    (dig.set_paths pk (some p) ddo fs).1.source_path = some p
    ∧ (dig.set_paths pk (some p) ddo fs).1.test_path = some (joinPath p "tests")
    ∧ (dig.set_paths pk (some p) ddo fs).1.doc_dir = some (resolvedDocDir p ddo)
    ∧ (dig.set_paths pk (some p) ddo fs).1.template_dir =
        some (joinPath (resolvedDocDir p ddo) "templates")
    ∧ (dig.set_paths pk (some p) ddo fs).1.coverage_path =
        some (joinPath (resolvedDocDir p ddo) "cov_html/index.html")
    ∧ (dig.set_paths pk (some p) ddo fs).1.test_report_path =
        some (joinPath (resolvedDocDir p ddo) "test_report.html")
    ∧ (dig.set_paths pk (some p) ddo fs).1.flake8_path =
        some (joinPath p ".flake8")
    ∧ (dig.set_paths pk (some p) ddo fs).1.toml_path =
        some (joinPath p "pyproject.toml")
    ∧ (dig.set_paths pk (some p) ddo fs).2.1.isDir
        (joinPath (resolvedDocDir p ddo) "templates") = true
    ∧ (fs.isFile (joinPath p "pyproject.toml") = false →
        (dig.set_paths pk (some p) ddo fs).1.pkg_name = dig.pkg_name
        ∧ (dig.set_paths pk (some p) ddo fs).1.pkg_version = dig.pkg_version)
    ∧ (fs.isFile (joinPath p "pyproject.toml") = true →
        (dig.set_paths pk (some p) ddo fs).1.pkg_name =
          some (fs.tomlPoetry (joinPath p "pyproject.toml")).name
        ∧ (dig.set_paths pk (some p) ddo fs).1.pkg_version =
          some (fs.tomlPoetry (joinPath p "pyproject.toml")).version) := by
  by_cases hf : fs.isFile (joinPath p "pyproject.toml") = true
  · by_cases hd : (fs.tomlPoetry (joinPath p "pyproject.toml")).name.data.contains '-'
        = true
    · rw [set_paths_dash_eq dig pk p ddo fs hf hd]
      refine ⟨rfl, rfl, rfl, rfl, rfl, rfl, rfl, rfl,
        ensure_dir_isDir_self fs _, ?_, fun _ => ⟨rfl, rfl⟩⟩
      intro hmiss
      exact absurd hmiss (by simp [hf])
    · have hd' : (fs.tomlPoetry (joinPath p "pyproject.toml")).name.data.contains '-'
          = false := by
        simpa using hd
      have hnone := (set_paths_err_none_iff dig pk p ddo fs).mpr ⟨hf, hd'⟩
      rw [hnone] at h
      simp at h
  · have hf' : fs.isFile (joinPath p "pyproject.toml") = false := by
      simpa using hf
    rw [set_paths_missing_eq dig pk p ddo fs hf']
    refine ⟨rfl, rfl, rfl, rfl, rfl, rfl, rfl, rfl,
      ensure_dir_isDir_self fs _, fun _ => ⟨rfl, rfl⟩, ?_⟩
    intro htrue
    exact absurd htrue hf

/-- Witness for C9 at the concrete root `proj` of `fsNoToml`, where the
missing-file error is raised. -/
theorem set_paths_partial_update_on_error_witness :
    ((DoItGlobals.init ["dd"]).set_paths none (some ["proj"]) none fsNoToml).2.2.isSome
      = true
    ∧ (((DoItGlobals.init ["dd"]).set_paths none (some ["proj"]) none fsNoToml).1.source_path
        = some ["proj"]
      ∧ ((DoItGlobals.init ["dd"]).set_paths none (some ["proj"]) none fsNoToml).1.test_path
        = some (joinPath ["proj"] "tests")
      ∧ ((DoItGlobals.init ["dd"]).set_paths none (some ["proj"]) none fsNoToml).1.doc_dir
        = some (resolvedDocDir ["proj"] none)
      ∧ ((DoItGlobals.init ["dd"]).set_paths none (some ["proj"]) none fsNoToml).1.template_dir
        = some (joinPath (resolvedDocDir ["proj"] none) "templates")
      ∧ ((DoItGlobals.init ["dd"]).set_paths none (some ["proj"]) none fsNoToml).1.coverage_path
        = some (joinPath (resolvedDocDir ["proj"] none) "cov_html/index.html")
      ∧ ((DoItGlobals.init ["dd"]).set_paths none (some ["proj"]) none fsNoToml).1.test_report_path
        = some (joinPath (resolvedDocDir ["proj"] none) "test_report.html")
      ∧ ((DoItGlobals.init ["dd"]).set_paths none (some ["proj"]) none fsNoToml).1.flake8_path
        = some (joinPath ["proj"] ".flake8")
      ∧ ((DoItGlobals.init ["dd"]).set_paths none (some ["proj"]) none fsNoToml).1.toml_path
        = some (joinPath ["proj"] "pyproject.toml")
      ∧ ((DoItGlobals.init ["dd"]).set_paths none (some ["proj"]) none fsNoToml).2.1.isDir
          (joinPath (resolvedDocDir ["proj"] none) "templates") = true
      ∧ (fsNoToml.isFile (joinPath ["proj"] "pyproject.toml") = false →
          ((DoItGlobals.init ["dd"]).set_paths none (some ["proj"]) none fsNoToml).1.pkg_name
            = (DoItGlobals.init ["dd"]).pkg_name
          ∧ ((DoItGlobals.init ["dd"]).set_paths none (some ["proj"]) none fsNoToml).1.pkg_version
            = (DoItGlobals.init ["dd"]).pkg_version)
      ∧ (fsNoToml.isFile (joinPath ["proj"] "pyproject.toml") = true →
          ((DoItGlobals.init ["dd"]).set_paths none (some ["proj"]) none fsNoToml).1.pkg_name
            = some (fsNoToml.tomlPoetry (joinPath ["proj"] "pyproject.toml")).name
          ∧ ((DoItGlobals.init ["dd"]).set_paths none (some ["proj"]) none fsNoToml).1.pkg_version
            = some (fsNoToml.tomlPoetry (joinPath ["proj"] "pyproject.toml")).version)) :=
  ⟨by decide,
    set_paths_partial_update_on_error (DoItGlobals.init ["dd"]) none ["proj"]
      none fsNoToml (by decide)⟩

/-- C10: after every successful call, `src_examples_dir` is
`p / 'tests/examples'` exactly when that directory exists (and `None`
otherwise, deactivating the examples functionality), while
`tmp_examples_dir` is always `p / pkg_name / '0EX'`. -/
theorem set_paths_examples_dirs (dig : DoItGlobals) (pk : Option String)
    (p : FsPath) (ddo : Option FsPath) (fs : Fs)
    (h : (dig.set_paths pk (some p) ddo fs).2.2 = none) :
    (dig.set_paths pk (some p) ddo fs).1.src_examples_dir =
      (if (dig.set_paths pk (some p) ddo fs).2.1.isDir (joinPath p "tests/examples")
       then some (joinPath p "tests/examples") else none)
    ∧ (dig.set_paths pk (some p) ddo fs).1.tmp_examples_dir =
      some (joinPath
        (joinPath p (fs.tomlPoetry (joinPath p "pyproject.toml")).name) "0EX") := by
  obtain ⟨hf, hd⟩ := (set_paths_err_none_iff dig pk p ddo fs).mp h
  rw [set_paths_success_eq dig pk p ddo fs hf hd]
  refine ⟨rfl, ?_⟩
  have hsplit : (fs.tomlPoetry (joinPath p "pyproject.toml")).name ++ "/0EX"
      = (fs.tomlPoetry (joinPath p "pyproject.toml")).name ++ "/" ++ "0EX" := by
    rw [String.append_assoc]
    rfl
  rw [hsplit, joinPath_concat_seg]

/-- Witness for C10 at the concrete root `proj` of `fsDemo` (no
`tests/examples` directory, package `demo_pkg`). -/
theorem set_paths_examples_dirs_witness :
    ((DoItGlobals.init ["dd"]).set_paths none (some ["proj"]) none fsDemo).2.2 = none
    ∧ (((DoItGlobals.init ["dd"]).set_paths none (some ["proj"]) none fsDemo).1.src_examples_dir
        = (if ((DoItGlobals.init ["dd"]).set_paths none (some ["proj"]) none fsDemo).2.1.isDir
              (joinPath ["proj"] "tests/examples")
           then some (joinPath ["proj"] "tests/examples") else none)
      ∧ ((DoItGlobals.init ["dd"]).set_paths none (some ["proj"]) none fsDemo).1.tmp_examples_dir
        = some (joinPath
            (joinPath ["proj"] (fsDemo.tomlPoetry (joinPath ["proj"] "pyproject.toml")).name)
            "0EX")) :=
  ⟨by decide,
    set_paths_examples_dirs (DoItGlobals.init ["dd"]) none ["proj"] none fsDemo
      (by decide)⟩
